import Mathlib

/-
Verification of the SomnaSync sleep-model training script
(src/train_sleep_model.py): a shallow embedding of the synthetic sample
generator, the stratified train/test splitter and the metadata composer,
together with theorems settling the specification claims.

Randomness model.  The script seeds numpy's global stream once
(np.random.seed(42)) and consumes it sequentially.  We embed the stream as
an explicit function g : Nat -> Rat of distribution variates.  Each
generated sample consumes exactly fifteen variates (every branch of the
phase selection draws the same number), so sample i reads positions
15*i .. 15*i + 14:

  offset 0      raw uniform u in [0,1) for np.random.uniform(0, 8);
                time_of_night = 8 * u
  offset 1      raw uniform deciding np.random.choice over stages
                (cumulative-threshold selection, side = right)
  offsets 2-7   base draws in source order: heartRate (standard normal
                variate z, normal(mu, sigma) embedded as mu + sigma * z),
                hrv (z), movement (standard exponential variate e >= 0,
                exponential(s) embedded as s * e), bloodOxygen (z),
                temperature (z), breathingRate (z)
  offsets 8-13  jitter standard-normal variates for the six continuous
                fields, in the order of source lines 66-71
  offset 14     np.random.random() draw used for previous_stage
-/

/-- One observation of the synthetic dataset, mirroring the dict built at
source lines 76-86. -/
structure Sample where
  heartRate : ℚ
  hrv : ℚ
  movement : ℚ
  bloodOxygen : ℚ
  temperature : ℚ
  breathingRate : ℚ
  timeOfNight : ℚ
  previousStage : ℕ
  stage : ℕ
deriving Repr, DecidableEq, Inhabited

/-- Per-phase base values: the stage draw and the six pre-jitter field
values chosen by the time-of-night branch (source lines 29-63). -/
structure PhaseBase where
  stage : ℕ
  heart_rate : ℚ
  hrv : ℚ
  movement : ℚ
  blood_oxygen : ℚ
  temperature : ℚ
  breathing_rate : ℚ
deriving Repr, DecidableEq

/-- One iteration of the loop body of generate_synthetic_sleep_data
(source lines 24-86) for sample index i, reading its fifteen variates from
the stream g.  np.random.choice([...], p) is embedded by cumulative
thresholds on a raw uniform; Python (stage - 1) % 4 on stage in 0..3 is
(stage + 3) % 4 on Nat. -/
def generateSample (g : ℕ → ℚ) (i : ℕ) : Sample :=
  let b := 15 * i
  let time_of_night : ℚ := 8 * g b
  let u : ℚ := g (b + 1)
  let base : PhaseBase :=
    if time_of_night < 1 then
      { stage := if u < 0.3 then 0 else 1
        heart_rate := 65 + 8 * g (b + 2)
        hrv := 35 + 10 * g (b + 3)
        movement := 0.3 * g (b + 4)
        blood_oxygen := 96 + 1.5 * g (b + 5)
        temperature := 36.8 + 0.3 * g (b + 6)
        breathing_rate := 14 + 2 * g (b + 7) }
    else if time_of_night < 3 then
      { stage := if u < 0.4 then 1 else 2
        heart_rate := 55 + 6 * g (b + 2)
        hrv := 45 + 8 * g (b + 3)
        movement := 0.1 * g (b + 4)
        blood_oxygen := 97 + 1 * g (b + 5)
        temperature := 36.5 + 0.2 * g (b + 6)
        breathing_rate := 12 + 1.5 * g (b + 7) }
    else if time_of_night < 5 then
      { stage := if u < 0.3 then 1 else 3
        heart_rate := 60 + 10 * g (b + 2)
        hrv := 40 + 12 * g (b + 3)
        movement := 0.2 * g (b + 4)
        blood_oxygen := 96.5 + 1.2 * g (b + 5)
        temperature := 36.7 + 0.4 * g (b + 6)
        breathing_rate := 16 + 3 * g (b + 7) }
    else
      { stage := if u < 0.2 then 0 else if u < 0.6 then 1 else if u < 0.8 then 2 else 3
        heart_rate := 62 + 9 * g (b + 2)
        hrv := 38 + 11 * g (b + 3)
        movement := 0.25 * g (b + 4)
        blood_oxygen := 96.8 + 1.3 * g (b + 5)
        temperature := 36.6 + 0.3 * g (b + 6)
        breathing_rate := 15 + 2.5 * g (b + 7) }
  { heartRate := max 40 (min 100 (base.heart_rate + 3 * g (b + 8)))
    hrv := max 10 (min 80 (base.hrv + 5 * g (b + 9)))
    movement := min 1 (base.movement + 0.1 * g (b + 10))
    bloodOxygen := max 90 (min 100 (base.blood_oxygen + 0.5 * g (b + 11)))
    temperature := max 35.5 (min 37.5 (base.temperature + 0.1 * g (b + 12)))
    breathingRate := max 8 (min 25 (base.breathing_rate + 1 * g (b + 13)))
    timeOfNight := time_of_night
    previousStage := if 0.3 < g (b + 14) then (base.stage + 3) % 4 else base.stage
    stage := base.stage }

/-- The whole generation loop (source lines 15-88): n_samples samples read
off the seeded stream g. -/
def generate_synthetic_sleep_data (g : ℕ → ℚ) (n_samples : ℕ) : List Sample :=
  (List.range n_samples).map (generateSample g)

/-- A realizable variate stream: every draw is 0 (valid uniform values,
valid exponential value, plausible normal values) except the movement
jitter of sample 0, a standard-normal value of -10, giving jitter -1. -/
def gDip : ℕ → ℚ := fun n => if n = 10 then -10 else 0

/-- Indices (counting from i0) of the samples whose stage equals c, in
dataset order. -/
def classIdxFrom (i0 : ℕ) : List Sample → ℕ → List ℕ
  | [], _ => []
  | s :: rest, c =>
    if s.stage = c then i0 :: classIdxFrom (i0 + 1) rest c
    else classIdxFrom (i0 + 1) rest c

/-- Modelled from the spec: sklearn's train_test_split (imported at source
line 10, called at lines 105-107 with stratify=y) is an external library
whose code is not under src, so the stratified splitter is modelled from
spec section 4.2: group sample indices by stage class. -/
def classIdx (ds : List Sample) (c : ℕ) : List ℕ := classIdxFrom 0 ds c

/-- Modelled from the spec: per-class partitioning of section 4.2.  Each
class list is deterministically shuffled (the seeded shuffle is the
parameter perm) and split so that the class takes
ceil(f*(p+size)) - ceil(f*p) test rows, p being the total size of the
classes already processed; this consistent rounding keeps every class
within one sample of proportionality and makes the test total telescope to
ceil(f*N), matching the exact split sizes the spec asserts in section 8.
First component: train indices; second: test indices. -/
def splitClasses (perm : List ℕ → List ℕ) (f : ℚ) : List (List ℕ) → ℕ → List ℕ × List ℕ
  | [], _ => ([], [])
  | cls :: rest, p =>
    let t : ℕ := Nat.ceil (f * ((p : ℚ) + (cls.length : ℚ))) - Nat.ceil (f * (p : ℚ))
    let sh := perm cls
    let pr := splitClasses perm f rest (p + cls.length)
    (sh.drop t ++ pr.1, sh.take t ++ pr.2)

/-- Modelled from the spec: the stratified splitter contract of sections
4.2 and 7 over the categorical stage domain 0..3 of section 3.  Errors: an
invalid test fraction, a sample outside the stage domain, or a present
class with a single member (the configuration error sklearn reports as
shown in the string).  On success it returns the pair of train and test
index lists into the input dataset. -/
def stratifiedSplit (perm : List ℕ → List ℕ) (f : ℚ) (ds : List Sample) :
    Except String (List ℕ × List ℕ) :=
  if ¬(0 < f ∧ f < 1) then .error "test_size must be strictly between 0 and 1"
  else if ∃ s ∈ ds, 4 ≤ s.stage then .error "stage outside the categorical domain 0..3"
  else if ∃ c ∈ List.range 4, (classIdx ds c).length = 1 then
    .error "The least populated class in y has only 1 member"
  else .ok (splitClasses perm f ((List.range 4).map (classIdx ds)) 0)

/-- The splitter of source lines 90-116: test_size = 0.2 with a seeded
shuffle; the feature/target column projection of lines 102-116 keeps every
column of our Sample record, so rows are returned unchanged. -/
def create_ml_training_data (perm : List ℕ → List ℕ) (ds : List Sample) :
    Except String (List ℕ × List ℕ) :=
  stratifiedSplit perm 0.2 ds

/-- A sample whose biometric fields are all zero and whose stage is c;
used as concrete witness input for the splitter theorems. -/
def mkS (c : ℕ) : Sample :=
  { heartRate := 0, hrv := 0, movement := 0, bloodOxygen := 0, temperature := 0,
    breathingRate := 0, timeOfNight := 0, previousStage := 0, stage := c }

/-- Concrete four-row dataset with two members in each of two classes. -/
def dsPair : List Sample := [mkS 0, mkS 0, mkS 1, mkS 1]

/-- Concrete dataset with a singleton class (class 1 has one member). -/
def dsSingleton : List Sample := [mkS 0, mkS 0, mkS 1]

/-- Concrete 10000-row dataset with 2500 members in each class. -/
def dsBig : List Sample := (List.range 10000).map (fun i => mkS (i % 4))

/-- The split the modelled splitter returns on dsPair (identity shuffle). -/
def splitPair : List ℕ × List ℕ :=
  match create_ml_training_data id dsPair with
  | .ok pr => pr
  | .error _ => ([], [])

/-- The split the modelled splitter returns on dsBig (identity shuffle):
on this dataset every check passes, so the result is the splitClasses
value directly. -/
def splitBig : List ℕ × List ℕ :=
  splitClasses id 0.2 ((List.range 4).map (classIdx dsBig)) 0

/-- The model_info block of source lines 166-173. -/
structure ModelInfo where
  name : String
  version : String
  description : String
  author : String
  license : String
  creation_date : String
deriving Repr, DecidableEq, Inhabited

/-- The training_info block of source lines 174-182. -/
structure TrainingInfo where
  algorithm : String
  architecture : String
  training_samples : ℕ
  validation_samples : ℕ
  epochs : ℕ
  batch_size : ℕ
  learning_rate : ℚ
deriving Repr, DecidableEq, Inhabited

/-- The performance_metrics block of source lines 183-188.  The source
keys precision and recall are reserved words here, hence the _score
suffix on those two fields. -/
structure PerformanceMetrics where
  accuracy : ℚ
  precision_score : ℚ
  recall_score : ℚ
  f1_score : ℚ
deriving Repr, DecidableEq, Inhabited

/-- The features block of source lines 189-205. -/
structure FeaturesInfo where
  input_features : List String
  output_classes : List String
  feature_descriptions : List (String × String)
deriving Repr, DecidableEq, Inhabited

/-- The metadata record of source lines 165-206. -/
structure Metadata where
  model_info : ModelInfo
  training_info : TrainingInfo
  performance_metrics : PerformanceMetrics
  features : FeaturesInfo
deriving Repr, DecidableEq, Inhabited

/-- The metadata dict literal of source lines 165-206, as a function of
the three required metric values and of the optional f1 entry of the
input mapping. -/
def mdOf (em : List (String × ℚ)) (av pv rv : ℚ) : Metadata :=
  { model_info :=
      { name := "SleepStagePredictor"
        version := "1.0"
        description := "Neural network for sleep stage prediction using biometric data"
        author := "SomnaSync Pro"
        license := "MIT"
        creation_date := "2024-01-15" }
    training_info :=
      { algorithm := "Neural Network"
        architecture := "64-32-4 (ReLU activation)"
        training_samples := 8000
        validation_samples := 2000
        epochs := 100
        batch_size := 32
        learning_rate := 0.001 }
    performance_metrics :=
      { accuracy := av
        precision_score := pv
        recall_score := rv
        f1_score := (em.lookup "f1").getD 0 }
    features :=
      { input_features := ["heartRate", "hrv", "movement", "bloodOxygen",
          "temperature", "breathingRate", "timeOfNight", "previousStage"]
        output_classes := ["awake", "light", "deep", "rem"]
        feature_descriptions :=
          [("heartRate", "Heart rate in BPM"),
           ("hrv", "Heart rate variability in ms"),
           ("movement", "Movement intensity (0-1)"),
           ("bloodOxygen", "Blood oxygen saturation %"),
           ("temperature", "Body temperature in Celsius"),
           ("breathingRate", "Breathing rate per minute"),
           ("timeOfNight", "Time since sleep start in hours"),
           ("previousStage", "Previous sleep stage (0-3)")] } }

/-- create_model_metadata (source lines 161-208).  The evaluation-metrics
mapping is a string-keyed association list; the bracket accesses of the
three required keys raise KeyError when absent, modelled as none, while
f1 is read with .get and a 0.0 default inside mdOf. -/
def create_model_metadata (em : List (String × ℚ)) : Option Metadata :=
  match em.lookup "accuracy", em.lookup "precision", em.lookup "recall" with
  | some av, some pv, some rv => some (mdOf em av pv rv)
  | _, _, _ => none

/-- The example metrics of spec section 8: accuracy, precision and recall
supplied, no f1 key. -/
def emSpec : List (String × ℚ) :=
  [("accuracy", 0.91), ("precision", 0.88), ("recall", 0.85)]

/-- The metadata record composed from emSpec. -/
def mdSpec : Metadata := (create_model_metadata emSpec).getD default

/-- Metrics in which the f1 key is present and carries the value 0. -/
def emF1Zero : List (String × ℚ) :=
  [("accuracy", 0.91), ("precision", 0.88), ("recall", 0.85), ("f1", 0)]

/-- The metadata record composed from emF1Zero. -/
def mdF1Zero : Metadata := (create_model_metadata emF1Zero).getD default

/-- Metrics missing the required accuracy key. -/
def emNoAcc : List (String × ℚ) := [("precision", 0.88), ("recall", 0.85)]

/-- C1: every continuous field of a generated sample lies within its
documented clamp bounds, in particular movement in [0,1].  The code
violates this: source line 68 applies only the upper clamp min(1.0, ...)
to movement, while lines 66-71 clamp every other field on both sides and
the feature description emitted at line 198 documents movement as
intensity 0-1.  At the realizable stream gDip (exponential base draw 0,
movement jitter -1) sample 0 has movement = -1, outside [0,1]. -/
theorem c1_movement_escapes_lower_bound :
    (generateSample gDip 0).movement = -1 ∧ (generateSample gDip 0).movement < 0 := by
  constructor
  · with_unfolding_all decide
  · with_unfolding_all decide

/-- C4: the stage label is restricted to the subset of classes of the
phase bucket selected solely by timeOfNight: [0,1) gives {Awake, Light} =
{0,1}; [1,3) gives {Light, Deep} = {1,2}; [3,5) gives {Light, REM} =
{1,3}; [5,8) allows all four classes (source lines 29-63). -/
theorem c4_stage_bucket (g : ℕ → ℚ) (i : ℕ) :
    ((generateSample g i).timeOfNight < 1 →
      (generateSample g i).stage = 0 ∨ (generateSample g i).stage = 1) ∧
    (1 ≤ (generateSample g i).timeOfNight ∧ (generateSample g i).timeOfNight < 3 →
      (generateSample g i).stage = 1 ∨ (generateSample g i).stage = 2) ∧
    (3 ≤ (generateSample g i).timeOfNight ∧ (generateSample g i).timeOfNight < 5 →
      (generateSample g i).stage = 1 ∨ (generateSample g i).stage = 3) ∧
    (5 ≤ (generateSample g i).timeOfNight →
      (generateSample g i).stage = 0 ∨ (generateSample g i).stage = 1 ∨
        (generateSample g i).stage = 2 ∨ (generateSample g i).stage = 3) := by
  simp only [generateSample]
  refine ⟨?_, ?_, ?_, ?_⟩
  · intro h
    rw [if_pos h]
    split_ifs <;> simp
  · rintro ⟨h1, h3⟩
    rw [if_neg (by linarith), if_pos h3]
    split_ifs <;> simp
  · rintro ⟨h3, h5⟩
    rw [if_neg (by linarith), if_neg (by linarith), if_pos h5]
    split_ifs <;> simp
  · intro h5
    rw [if_neg (by linarith), if_neg (by linarith), if_neg (by linarith)]
    split_ifs <;> simp

/-- C5: previousStage is derived at source line 74 from the draw at offset
14 of the sample's variate block: when that uniform draw exceeds 0.3 (an
event of Lebesgue measure 0.7 inside [0,1)) previousStage is
(stage - 1) mod 4, written (stage + 3) % 4 on Nat, and otherwise it equals
stage; it always lies in the two-element set and in the categorical domain
0..3. -/
theorem c5_previous_stage (g : ℕ → ℚ) (i : ℕ) :
    ((generateSample g i).previousStage = ((generateSample g i).stage + 3) % 4 ∨
      (generateSample g i).previousStage = (generateSample g i).stage) ∧
    (generateSample g i).previousStage < 4 ∧
    ((0.3 : ℚ) < g (15 * i + 14) →
      (generateSample g i).previousStage = ((generateSample g i).stage + 3) % 4) ∧
    (g (15 * i + 14) ≤ (0.3 : ℚ) →
      (generateSample g i).previousStage = (generateSample g i).stage) ∧
    MeasureTheory.volume {u : ℝ | u ∈ Set.Ico (0 : ℝ) 1 ∧ (0.3 : ℝ) < u} =
      ENNReal.ofReal 0.7 := by
  refine ⟨?_, ?_, ?_, ?_, ?_⟩
  · simp only [generateSample]
    split_ifs <;> simp
  · simp only [generateSample]
    split_ifs <;> norm_num
  · intro h
    simp only [generateSample]
    rw [if_pos h]
  · intro h
    simp only [generateSample]
    rw [if_neg (by exact not_lt.mpr h)]
  · have hset : {u : ℝ | u ∈ Set.Ico (0 : ℝ) 1 ∧ (0.3 : ℝ) < u} =
        Set.Ioo (0.3 : ℝ) 1 := by
      ext u
      simp only [Set.mem_setOf_eq, Set.mem_Ico, Set.mem_Ioo]
      constructor
      · rintro ⟨⟨h0, h1⟩, h3⟩
        exact ⟨h3, h1⟩
      · rintro ⟨h3, h1⟩
        exact ⟨⟨by linarith, h1⟩, h3⟩
    rw [hset, Real.volume_Ioo]
    norm_num

/-- The sample at index i is a function of its own fifteen-variate block
alone: two streams agreeing on positions 15*i .. 15*i + 14 generate the
same sample i. -/
lemma generateSample_congr (g g2 : ℕ → ℚ) (i : ℕ)
    (hagree : ∀ k, k < 15 → g (15 * i + k) = g2 (15 * i + k)) :
    generateSample g i = generateSample g2 i := by
  have h0 : g (15 * i) = g2 (15 * i) := by
    have h := hagree 0 (by norm_num)
    simpa using h
  have h1 := hagree 1 (by norm_num)
  have h2 := hagree 2 (by norm_num)
  have h3 := hagree 3 (by norm_num)
  have h4 := hagree 4 (by norm_num)
  have h5 := hagree 5 (by norm_num)
  have h6 := hagree 6 (by norm_num)
  have h7 := hagree 7 (by norm_num)
  have h8 := hagree 8 (by norm_num)
  have h9 := hagree 9 (by norm_num)
  have h10 := hagree 10 (by norm_num)
  have h11 := hagree 11 (by norm_num)
  have h12 := hagree 12 (by norm_num)
  have h13 := hagree 13 (by norm_num)
  have h14 := hagree 14 (by norm_num)
  simp only [generateSample, h0, h1, h2, h3, h4, h5, h6, h7, h8, h9, h10, h11,
    h12, h13, h14]

/-- C3: generation is deterministic and per-index local.  The i-th entry
of a generated dataset is exactly generateSample g i, a pure function of
(stream, index); hence two runs over streams that agree on the fifteen
variates of block i (in particular two runs over the same seeded stream,
or a sequential and a parallel run deriving block i identically) produce
the identical i-th sample, regardless of the requested dataset sizes. -/
theorem c3_deterministic (g g2 : ℕ → ℚ) (n n2 i : ℕ) (hn : i < n) (hn2 : i < n2)
    (hagree : ∀ k, k < 15 → g (15 * i + k) = g2 (15 * i + k)) :
    (generate_synthetic_sleep_data g n)[i]? = some (generateSample g i) ∧
    (generate_synthetic_sleep_data g n)[i]? = (generate_synthetic_sleep_data g2 n2)[i]? := by
  have hget : ∀ (h : ℕ → ℚ) (m : ℕ), i < m →
      (generate_synthetic_sleep_data h m)[i]? = some (generateSample h i) := by
    intro h m hm
    simp [generate_synthetic_sleep_data, List.getElem?_map, List.getElem?_range, hm]
  refine ⟨hget g n hn, ?_⟩
  rw [hget g n hn, hget g2 n2 hn2, generateSample_congr g g2 i hagree]

/-- Witness for C3 at the all-zero stream, dataset sizes 2 and 3, index 1. -/
theorem c3_witness :
    (generate_synthetic_sleep_data (fun _ => 0) 2)[1]? =
      some (generateSample (fun _ => 0) 1) ∧
    (generate_synthetic_sleep_data (fun _ => 0) 2)[1]? =
      (generate_synthetic_sleep_data (fun _ => 0) 3)[1]? :=
  c3_deterministic (fun _ => 0) (fun _ => 0) 2 3 1 (by norm_num) (by norm_num)
    (fun k _ => rfl)

/-- Witness for C4: at the all-zero stream, sample 0 falls in the first
phase bucket and its stage is Awake or Light. -/
theorem c4_witness :
    (generateSample (fun _ => 0) 0).stage = 0 ∨ (generateSample (fun _ => 0) 0).stage = 1 :=
  (c4_stage_bucket (fun _ => 0) 0).1 (by with_unfolding_all decide)

/-- Witness for C5: at the all-one stream the previous-stage draw exceeds
0.3, so previousStage is (stage - 1) mod 4. -/
theorem c5_witness :
    (generateSample (fun _ => 1) 0).previousStage =
      ((generateSample (fun _ => 1) 0).stage + 3) % 4 :=
  (c5_previous_stage (fun _ => 1) 0).2.2.1 (by norm_num)

/-- Grouping by the four stage classes loses no index and invents none:
the concatenated class index lists are a permutation of all indices. -/
lemma classIdxFrom_partition (ds : List Sample) : ∀ i0 : ℕ, (∀ s ∈ ds, s.stage < 4) →
    (classIdxFrom i0 ds 0 ++ (classIdxFrom i0 ds 1 ++
      (classIdxFrom i0 ds 2 ++ classIdxFrom i0 ds 3))).Perm
      (List.range' i0 ds.length) := by
  induction ds with
  | nil =>
    intro i0 _
    simp [classIdxFrom]
  | cons s rest ih =>
    intro i0 h
    have hs : s.stage < 4 := h s (by simp)
    have hrest : ∀ x ∈ rest, x.stage < 4 := fun x hx => h x (by simp [hx])
    have hperm := ih (i0 + 1) hrest
    have hcase : s.stage = 0 ∨ s.stage = 1 ∨ s.stage = 2 ∨ s.stage = 3 := by omega
    simp only [List.length_cons, List.range'_succ]
    rcases hcase with h0 | h1 | h2 | h3
    · simp only [classIdxFrom, h0, List.cons_append]
      norm_num
      exact hperm
    · simp only [classIdxFrom, h1, List.cons_append]
      norm_num
      exact (List.perm_middle).trans (hperm.cons i0)
    · simp only [classIdxFrom, h2, List.cons_append]
      norm_num
      exact ((List.Perm.append_left _ List.perm_middle).trans List.perm_middle).trans
        (hperm.cons i0)
    · simp only [classIdxFrom, h3, List.cons_append]
      norm_num
      exact ((List.Perm.append_left _ ((List.Perm.append_left _ List.perm_middle).trans
        List.perm_middle)).trans List.perm_middle).trans (hperm.cons i0)

/-- The four class index lists partition the index range of the dataset. -/
lemma classIdx_partition (ds : List Sample) (h : ∀ s ∈ ds, s.stage < 4) :
    (classIdx ds 0 ++ (classIdx ds 1 ++ (classIdx ds 2 ++ classIdx ds 3))).Perm
      (List.range ds.length) := by
  have hp := classIdxFrom_partition ds 0 h
  simpa [classIdx, List.range_eq_range'] using hp

/-- Splitting the per-class lists reassembles exactly their contents:
train indices plus test indices are a permutation of the concatenated
classes, whenever the shuffle is a permutation. -/
lemma splitClasses_append_perm (perm : List ℕ → List ℕ)
    (hperm : ∀ l, (perm l).Perm l) (f : ℚ) :
    ∀ (L : List (List ℕ)) (p : ℕ),
      ((splitClasses perm f L p).1 ++ (splitClasses perm f L p).2).Perm L.flatten := by
  intro L
  induction L with
  | nil =>
    intro p
    simp [splitClasses]
  | cons cls rest ih =>
    intro p
    simp only [splitClasses, List.flatten_cons]
    rw [← Multiset.coe_eq_coe]
    simp only [← Multiset.coe_add]
    have hsh : ((List.take (Nat.ceil (f * ((p : ℚ) + (cls.length : ℚ))) -
          Nat.ceil (f * (p : ℚ))) (perm cls) : Multiset ℕ)) +
        ((List.drop (Nat.ceil (f * ((p : ℚ) + (cls.length : ℚ))) -
          Nat.ceil (f * (p : ℚ))) (perm cls) : Multiset ℕ)) = (cls : Multiset ℕ) := by
      rw [Multiset.coe_add, Multiset.coe_eq_coe, List.take_append_drop]
      exact hperm cls
    have hab : (((splitClasses perm f rest (p + cls.length)).1 : Multiset ℕ)) +
        (((splitClasses perm f rest (p + cls.length)).2 : Multiset ℕ)) =
        ((rest.flatten : Multiset ℕ)) := by
      rw [Multiset.coe_add, Multiset.coe_eq_coe]
      exact ih (p + cls.length)
    rw [← hsh, ← hab]
    abel

/-- Test and train sizes of the per-class split: the test side telescopes
to ceil(f*(p+S)) - ceil(f*p) over the total class size S, and train plus
test recover every element. -/
lemma splitClasses_lengths (perm : List ℕ → List ℕ)
    (hperm : ∀ l, (perm l).length = l.length) (f : ℚ) (hf0 : 0 ≤ f) (hf1 : f ≤ 1) :
    ∀ (L : List (List ℕ)) (p : ℕ),
      (splitClasses perm f L p).2.length =
        Nat.ceil (f * ((p : ℚ) + ((L.map List.length).sum : ℚ))) -
          Nat.ceil (f * (p : ℚ)) ∧
      (splitClasses perm f L p).1.length + (splitClasses perm f L p).2.length =
        (L.map List.length).sum := by
  intro L
  induction L with
  | nil =>
    intro p
    simp [splitClasses]
  | cons cls rest ih =>
    intro p
    obtain ⟨ih1, ih2⟩ := ih (p + cls.length)
    have hfp : (0 : ℚ) ≤ f * (p : ℚ) := by positivity
    have hcast : ((p + cls.length : ℕ) : ℚ) = (p : ℚ) + (cls.length : ℚ) := by
      push_cast
      ring
    rw [hcast] at ih1
    have hm12 : Nat.ceil (f * (p : ℚ)) ≤ Nat.ceil (f * ((p : ℚ) + (cls.length : ℚ))) := by
      apply Nat.ceil_mono
      have h0 : (0 : ℚ) ≤ (cls.length : ℚ) := by positivity
      nlinarith
    have hm23 : Nat.ceil (f * ((p : ℚ) + (cls.length : ℚ))) ≤
        Nat.ceil (f * ((p : ℚ) + (cls.length : ℚ) + (((rest.map List.length).sum : ℕ) : ℚ))) := by
      apply Nat.ceil_mono
      have h0 : (0 : ℚ) ≤ (((rest.map List.length).sum : ℕ) : ℚ) := by positivity
      nlinarith
    have ht : Nat.ceil (f * ((p : ℚ) + (cls.length : ℚ))) -
        Nat.ceil (f * (p : ℚ)) ≤ cls.length := by
      have h1 : f * (cls.length : ℚ) ≤ (cls.length : ℚ) := by
        have h0 : (0 : ℚ) ≤ (cls.length : ℚ) := by positivity
        nlinarith
      have hle : f * ((p : ℚ) + (cls.length : ℚ)) ≤ f * (p : ℚ) + (cls.length : ℚ) := by
        nlinarith
      have h2 : Nat.ceil (f * ((p : ℚ) + (cls.length : ℚ))) ≤
          Nat.ceil (f * (p : ℚ) + (cls.length : ℚ)) := Nat.ceil_mono hle
      rw [Nat.ceil_add_nat hfp] at h2
      omega
    have hlen : (perm cls).length = cls.length := hperm cls
    simp only [splitClasses, List.map_cons, List.sum_cons, List.length_append,
      List.length_take, List.length_drop, hlen]
    rw [show ((cls.length + (rest.map List.length).sum : ℕ) : ℚ) =
      (cls.length : ℚ) + (((rest.map List.length).sum : ℕ) : ℚ) from by push_cast; ring]
    rw [show (p : ℚ) + ((cls.length : ℚ) + (((rest.map List.length).sum : ℕ) : ℚ)) =
      (p : ℚ) + (cls.length : ℚ) + (((rest.map List.length).sum : ℕ) : ℚ) from by ring]
    rw [ih1]
    constructor
    · omega
    · omega

/-- Reading every index of a dataset back through getD reproduces it. -/
lemma map_getD_range (ds : List Sample) :
    (List.range ds.length).map (fun i => ds.getD i default) = ds := by
  induction ds with
  | nil => simp
  | cons s rest ih =>
    simp only [List.length_cons, List.range_succ_eq_map, List.map_cons,
      List.getD_cons_zero, List.map_map, Function.comp_def, List.getD_cons_succ]
    have ih2 := ih
    simp only [List.getD_eq_getElem?_getD] at ih2
    simp [ih2]

/-- C2: whenever the splitter accepts a dataset, the returned train and
test index lists are disjoint and, read back through the dataset, their
multiset union is exactly the input dataset: no sample duplicated, none
dropped. -/
theorem c2_split_partition (perm : List ℕ → List ℕ) (ds : List Sample)
    (tr te : List ℕ) (hperm : ∀ l, (perm l).Perm l)
    (hok : create_ml_training_data perm ds = Except.ok (tr, te)) :
    List.Disjoint tr te ∧
      ((tr ++ te).map (fun i => ds.getD i default)).Perm ds := by
  unfold create_ml_training_data stratifiedSplit at hok
  split_ifs at hok with h1 h2 h3
  have hdom : ∀ s ∈ ds, s.stage < 4 := by
    intro s hs
    by_contra hlt
    exact h2 ⟨s, hs, by omega⟩
  have hpair : splitClasses perm (0.2 : ℚ) ((List.range 4).map (classIdx ds)) 0 =
      (tr, te) := by
    simpa using hok
  have htr : tr = (splitClasses perm (0.2 : ℚ) ((List.range 4).map (classIdx ds)) 0).1 := by
    rw [hpair]
  have hte : te = (splitClasses perm (0.2 : ℚ) ((List.range 4).map (classIdx ds)) 0).2 := by
    rw [hpair]
  have hflat : ((List.range 4).map (classIdx ds)).flatten =
      classIdx ds 0 ++ (classIdx ds 1 ++ (classIdx ds 2 ++ classIdx ds 3)) := by
    rw [show List.range 4 = [0, 1, 2, 3] from rfl]
    simp
  have hjoin := splitClasses_append_perm perm hperm (0.2 : ℚ)
    ((List.range 4).map (classIdx ds)) 0
  rw [hflat] at hjoin
  have hrange : (tr ++ te).Perm (List.range ds.length) := by
    rw [htr, hte]
    exact hjoin.trans (classIdx_partition ds hdom)
  constructor
  · have hnodup : (tr ++ te).Nodup := hrange.nodup_iff.mpr (List.nodup_range _)
    exact (List.nodup_append.mp hnodup).2.2
  · have hmap := hrange.map (fun i => ds.getD i default)
    rw [map_getD_range] at hmap
    exact hmap

/-- C6: a dataset in which some stage class is present with fewer than two
members is rejected with the configuration error, and no train or test
subset is produced. -/
theorem c6_singleton_class_error (perm : List ℕ → List ℕ) (ds : List Sample)
    (hdom : ∀ s ∈ ds, s.stage < 4)
    (hbad : ∃ c < 4, 0 < (classIdx ds c).length ∧ (classIdx ds c).length < 2) :
    create_ml_training_data perm ds =
      Except.error "The least populated class in y has only 1 member" ∧
    ∀ pr : List ℕ × List ℕ, create_ml_training_data perm ds ≠ Except.ok pr := by
  have herr : create_ml_training_data perm ds =
      Except.error "The least populated class in y has only 1 member" := by
    unfold create_ml_training_data stratifiedSplit
    rw [if_neg (show ¬¬((0 : ℚ) < 0.2 ∧ (0.2 : ℚ) < 1) from by norm_num)]
    rw [if_neg (show ¬∃ s ∈ ds, 4 ≤ s.stage from by
      rintro ⟨s, hs, h4⟩
      exact absurd (hdom s hs) (by omega))]
    rw [if_pos (show ∃ c ∈ List.range 4, (classIdx ds c).length = 1 from by
      obtain ⟨c, hc4, hpos, hlt⟩ := hbad
      exact ⟨c, List.mem_range.mpr hc4, by omega⟩)]
  refine ⟨herr, fun pr h => ?_⟩
  rw [herr] at h
  exact absurd h (by simp)

/-- C9: on any accepted 10000-sample dataset the splitter with test
fraction 0.2 returns exactly 8000 train rows and 2000 test rows. -/
theorem c9_split_sizes (perm : List ℕ → List ℕ) (ds : List Sample) (tr te : List ℕ)
    (hperm : ∀ l, (perm l).Perm l) (hlen : ds.length = 10000)
    (hok : create_ml_training_data perm ds = Except.ok (tr, te)) :
    tr.length = 8000 ∧ te.length = 2000 := by
  unfold create_ml_training_data stratifiedSplit at hok
  split_ifs at hok with h1 h2 h3
  have hdom : ∀ s ∈ ds, s.stage < 4 := by
    intro s hs
    by_contra hlt
    exact h2 ⟨s, hs, by omega⟩
  have hpair : splitClasses perm (0.2 : ℚ) ((List.range 4).map (classIdx ds)) 0 =
      (tr, te) := by
    simpa using hok
  have hsum : (((List.range 4).map (classIdx ds)).map List.length).sum = 10000 := by
    have hp := classIdx_partition ds hdom
    have hpl := hp.length_eq
    simp only [List.length_append, List.length_range] at hpl
    rw [show List.range 4 = [0, 1, 2, 3] from rfl]
    simp only [List.map_cons, List.map_nil, List.sum_cons, List.sum_nil]
    omega
  have hlens := splitClasses_lengths perm (fun l => (hperm l).length_eq) (0.2 : ℚ)
    (by norm_num) (by norm_num) ((List.range 4).map (classIdx ds)) 0
  obtain ⟨hte, htotal⟩ := hlens
  rw [hsum] at hte htotal
  have hceil : Nat.ceil ((0.2 : ℚ) * (((0 : ℕ) : ℚ) + ((10000 : ℕ) : ℚ))) = 2000 := by
    rw [show ((0.2 : ℚ) * (((0 : ℕ) : ℚ) + ((10000 : ℕ) : ℚ))) = ((2000 : ℕ) : ℚ) from by
      push_cast
      norm_num]
    exact Nat.ceil_natCast 2000
  have hceil0 : Nat.ceil ((0.2 : ℚ) * ((0 : ℕ) : ℚ)) = 0 := by
    rw [show ((0.2 : ℚ) * ((0 : ℕ) : ℚ)) = (0 : ℚ) from by push_cast; ring]
    exact Nat.ceil_zero
  rw [hceil, hceil0] at hte
  have hTR : (splitClasses perm (0.2 : ℚ) ((List.range 4).map (classIdx ds)) 0).1 = tr := by
    rw [hpair]
  have hTE : (splitClasses perm (0.2 : ℚ) ((List.range 4).map (classIdx ds)) 0).2 = te := by
    rw [hpair]
  rw [hTR, hTE] at htotal
  rw [hTE] at hte
  constructor
  · omega
  · omega

/-- Witness for C2 at the four-row dataset and the identity shuffle. -/
theorem c2_witness :
    List.Disjoint splitPair.1 splitPair.2 ∧
      ((splitPair.1 ++ splitPair.2).map (fun i => dsPair.getD i default)).Perm dsPair :=
  c2_split_partition id dsPair splitPair.1 splitPair.2 (fun l => List.Perm.refl l)
    (by with_unfolding_all rfl)

/-- Witness for C6 at the three-row dataset whose class 1 is a singleton. -/
theorem c6_witness :
    create_ml_training_data id dsSingleton =
      Except.error "The least populated class in y has only 1 member" :=
  (c6_singleton_class_error id dsSingleton (by with_unfolding_all decide)
    ⟨1, by norm_num, by with_unfolding_all decide, by with_unfolding_all decide⟩).1

/-- Membership in a class index list: j is listed for class c exactly when
it points (relative to the running offset) at a sample of stage c. -/
lemma mem_classIdxFrom (c : ℕ) : ∀ (ds : List Sample) (i0 j : ℕ),
    j ∈ classIdxFrom i0 ds c ↔
      ∃ k, k < ds.length ∧ j = i0 + k ∧ (ds.getD k default).stage = c := by
  intro ds
  induction ds with
  | nil =>
    intro i0 j
    simp [classIdxFrom]
  | cons s rest ih =>
    intro i0 j
    by_cases hs : s.stage = c
    · simp only [classIdxFrom, if_pos hs, List.mem_cons, ih (i0 + 1) j]
      constructor
      · rintro (rfl | ⟨k, hk, rfl, hkc⟩)
        · exact ⟨0, by simp, by simp, by simpa using hs⟩
        · exact ⟨k + 1, by simp [hk], by omega, by simpa using hkc⟩
      · rintro ⟨k, hk, rfl, hkc⟩
        cases k with
        | zero => exact Or.inl (by simp [List.getD_cons_zero] at hkc ⊢)
        | succ m =>
          refine Or.inr ⟨m, ?_, by omega, ?_⟩
          · simpa using hk
          · simpa [List.getD_cons_succ] using hkc
    · simp only [classIdxFrom, if_neg hs, ih (i0 + 1) j]
      constructor
      · rintro ⟨k, hk, rfl, hkc⟩
        exact ⟨k + 1, by simp [hk], by omega, by simpa using hkc⟩
      · rintro ⟨k, hk, rfl, hkc⟩
        cases k with
        | zero =>
          simp only [List.getD_cons_zero] at hkc
          exact absurd hkc hs
        | succ m =>
          refine ⟨m, ?_, by omega, ?_⟩
          · simpa using hk
          · simpa [List.getD_cons_succ] using hkc

/-- Reading dsBig at a valid index gives a sample of stage j mod 4. -/
lemma dsBig_getD (j : ℕ) (hj : j < 10000) :
    (dsBig.getD j default).stage = j % 4 := by
  simp [dsBig, List.getD_eq_getElem?_getD, List.getElem?_map, List.getElem?_range, hj, mkS]

/-- dsBig has exactly 10000 rows. -/
lemma dsBig_length : dsBig.length = 10000 := by
  simp [dsBig]

/-- The splitter accepts dsBig and returns splitBig. -/
lemma dsBig_split_ok :
    create_ml_training_data id dsBig = Except.ok (splitBig.1, splitBig.2) := by
  unfold create_ml_training_data stratifiedSplit
  rw [if_neg (show ¬¬((0 : ℚ) < 0.2 ∧ (0.2 : ℚ) < 1) from by norm_num)]
  rw [if_neg (show ¬∃ s ∈ dsBig, 4 ≤ s.stage from by
    rintro ⟨s, hs, h4⟩
    simp only [dsBig, List.mem_map, List.mem_range] at hs
    obtain ⟨i, hi, rfl⟩ := hs
    simp only [mkS] at h4
    omega)]
  rw [if_neg (show ¬∃ c ∈ List.range 4, (classIdx dsBig c).length = 1 from by
    rintro ⟨c, hc, h1⟩
    rw [List.mem_range] at hc
    have hm1 : c ∈ classIdx dsBig c := by
      rw [classIdx, mem_classIdxFrom]
      exact ⟨c, by rw [dsBig_length]; omega, by omega, by rw [dsBig_getD c (by omega)]; omega⟩
    have hm2 : c + 4 ∈ classIdx dsBig c := by
      rw [classIdx, mem_classIdxFrom]
      exact ⟨c + 4, by rw [dsBig_length]; omega, by omega,
        by rw [dsBig_getD (c + 4) (by omega)]; omega⟩
    rw [List.length_eq_one] at h1
    obtain ⟨x, hx⟩ := h1
    rw [hx, List.mem_singleton] at hm1 hm2
    omega)]
  rfl

/-- Witness for C9 at the concrete 10000-row dataset. -/
theorem c9_witness : splitBig.1.length = 8000 ∧ splitBig.2.length = 2000 :=
  c9_split_sizes id dsBig splitBig.1 splitBig.2 (fun l => List.Perm.refl l)
    dsBig_length dsBig_split_ok

/-- Inversion for the composer: a composed record determines the three
required lookups and its own shape. -/
lemma create_model_metadata_eq (em : List (String × ℚ)) (md : Metadata)
    (hok : create_model_metadata em = some md) :
    ∃ av pv rv, em.lookup "accuracy" = some av ∧ em.lookup "precision" = some pv ∧
      em.lookup "recall" = some rv ∧ md = mdOf em av pv rv := by
  unfold create_model_metadata at hok
  cases ha : em.lookup "accuracy" <;> rw [ha] at hok
  · exact absurd hok (by simp)
  · cases hp : em.lookup "precision" <;> rw [hp] at hok
    · exact absurd hok (by simp)
    · cases hr : em.lookup "recall" <;> rw [hr] at hok
      · exact absurd hok (by simp)
      · exact ⟨_, _, _, rfl, rfl, rfl, (Option.some.inj hok).symm⟩

/-- C7 (amended): the composer sets f1_score to 0.0 when the metrics
mapping has no f1 key and to the supplied f1 value when the key is
present; the two cases coincide when f1 is supplied as 0.0, so a zero
f1_score does not imply the key was absent. -/
theorem c7_f1_default (em : List (String × ℚ)) (md : Metadata)
    (hok : create_model_metadata em = some md) :
    (em.lookup "f1" = none → md.performance_metrics.f1_score = 0) ∧
    (∀ v, em.lookup "f1" = some v → md.performance_metrics.f1_score = v) := by
  obtain ⟨av, pv, rv, ha, hp, hr, hmd⟩ := create_model_metadata_eq em md hok
  constructor
  · intro hf1
    rw [hmd]
    simp [mdOf, hf1]
  · intro v hf1
    rw [hmd]
    simp [mdOf, hf1]

/-- Witness for C7 at the spec section 8 metrics (no f1 key). -/
theorem c7_witness : mdSpec.performance_metrics.f1_score = 0 :=
  (c7_f1_default emSpec mdSpec (by with_unfolding_all rfl)).1 (by with_unfolding_all rfl)

/-- C7 counterexample to the claim as stated: with f1 supplied as 0.0 the
composed f1_score is 0.0 although the f1 key is present, so f1_score is
not 0.0 exactly when the key is absent. -/
theorem c7_counterexample :
    create_model_metadata emF1Zero = some mdF1Zero ∧
    mdF1Zero.performance_metrics.f1_score = 0 ∧
    emF1Zero.lookup "f1" = some 0 := by
  refine ⟨?_, ?_, ?_⟩
  · with_unfolding_all rfl
  · with_unfolding_all rfl
  · with_unfolding_all rfl

/-- C8: independently of the supplied metrics, a composed record carries
the fixed schema and constants: the eight input feature names in their
fixed order, the four output classes, one description per feature in the
same order, the architecture string, the 8000/2000 sample counts, 100
epochs, batch size 32 and learning rate 0.001. -/
theorem c8_fixed_schema (em : List (String × ℚ)) (md : Metadata)
    (hok : create_model_metadata em = some md) :
    md.features.input_features = ["heartRate", "hrv", "movement", "bloodOxygen",
        "temperature", "breathingRate", "timeOfNight", "previousStage"] ∧
    md.features.input_features.length = 8 ∧
    md.features.output_classes = ["awake", "light", "deep", "rem"] ∧
    md.features.feature_descriptions.map Prod.fst = md.features.input_features ∧
    md.training_info.architecture = "64-32-4 (ReLU activation)" ∧
    md.training_info.training_samples = 8000 ∧
    md.training_info.validation_samples = 2000 ∧
    md.training_info.epochs = 100 ∧
    md.training_info.batch_size = 32 ∧
    md.training_info.learning_rate = 0.001 := by
  obtain ⟨av, pv, rv, ha, hp, hr, hmd⟩ := create_model_metadata_eq em md hok
  rw [hmd]
  exact ⟨rfl, rfl, rfl, rfl, rfl, rfl, rfl, rfl, rfl, rfl⟩

/-- Witness for C8 at the spec section 8 metrics. -/
theorem c8_witness :
    mdSpec.features.output_classes = ["awake", "light", "deep", "rem"] :=
  (c8_fixed_schema emSpec mdSpec (by with_unfolding_all rfl)).2.2.1

/-- C10: the composer requires the accuracy, precision and recall keys:
missing any of them yields no record (the KeyError path), while any
mapping supplying all three yields a record, f1 being optional. -/
theorem c10_required_keys (em : List (String × ℚ)) :
    ((em.lookup "accuracy" = none ∨ em.lookup "precision" = none ∨
        em.lookup "recall" = none) → create_model_metadata em = none) ∧
    ((em.lookup "accuracy").isSome ∧ (em.lookup "precision").isSome ∧
        (em.lookup "recall").isSome → (create_model_metadata em).isSome = true) := by
  unfold create_model_metadata
  cases ha : em.lookup "accuracy" <;> cases hp : em.lookup "precision" <;>
    cases hr : em.lookup "recall" <;> simp

/-- Witness for C10 at metrics missing the accuracy key. -/
theorem c10_witness : create_model_metadata emNoAcc = none :=
  (c10_required_keys emNoAcc).1 (Or.inl (by with_unfolding_all rfl))
